import Mathlib

/-!
# Passphrase request state machine (`passphrase_sm.c`)

A shallow embedding of `keepkey/local/baremetal/passphrase_sm.c`: the
request / wait / finished state machine that asks the USB host for a
passphrase, the orchestration in `passphrase_protect`, and the deferred
cancellation report `cancel_passphrase`.

Conventions of the embedding

* A `char` is a natural number, `0` is NUL.  A region of memory is the list
  of bytes found from an address on; bytes after the end of the list read
  as NUL.  A `char *` argument is such a list, and `cstr` is the C string it
  denotes.
* The collaborators of the file (`msg_write`, `wait_for_tiny_msg`, the
  session cache, the storage flag and the two message handlers) are not
  part of it.  Every call of one is appended to `World.trace`; what the
  queries answer is held in `World`.
* `wait_for_tiny_msg` blocks until the host sends a tiny message.  The
  messages the host will send are the list `World.incoming`; on the empty
  list the receive never returns (`none`).
* The `while(1)` loop of `passphrase_request` takes a fuel argument that
  bounds the number of iterations; `none` is "has not returned".
-/

namespace PassphraseSm

/-! ## Data model -/

/-- Wire message types named by the source, and every other type of the
catalogue. -/
inductive MessageType where
  | MessageType_Initialize
  | MessageType_Cancel
  | MessageType_PassphraseRequest
  | MessageType_PassphraseAck
  | MessageType_Other (id : Nat)
  deriving DecidableEq, Repr

/-- States of the machine, as switched on by `run_passphrase_state`. -/
inductive PassphraseState where
  | PASSPHRASE_REQUEST
  | PASSPHRASE_WAITING
  | PASSPHRASE_FINISHED
  deriving DecidableEq, Repr

/-- Classification of the host's answer, as held in the field
`passphrase_ack_msg`: the four enumerators the source names, and any other
value.  The field is read before anything assigns it (the local of
`passphrase_protect` has no initialiser), so it can hold a bit pattern that is
no enumerator; `raw` is that pattern. -/
inductive PassphraseAckMsg where
  | PASSPHRASE_ACK_WAITING
  | PASSPHRASE_ACK_RECEIVED
  | PASSPHRASE_ACK_CANCEL
  | PASSPHRASE_ACK_CANCEL_BY_INIT
  | NOT_AN_ENUMERATOR (raw : Nat)
  deriving DecidableEq, Repr

/-- The struct filled by the machine.  `passphrase` is the memory from the address
of the `passphrase` array on: the array itself, then whatever follows it. -/
structure PassphraseInfo where
  passphrase_ack_msg : PassphraseAckMsg
  passphrase : List Nat
  deriving DecidableEq, Repr

/-- Failure codes are an enumeration of the wire protocol; only passed through. -/
abbrev FailureType := Nat

/-- One tiny message from the host: the type `wait_for_tiny_msg` returns and the
bytes it leaves in `msg_tiny_buf`. -/
structure TinyMsg where
  msg_type : MessageType
  msg_tiny_buf : List Nat
  deriving DecidableEq, Repr

/-- Calls made to the collaborators, in program order. -/
inductive Event where
  | msg_write (msg_type : MessageType) (payload : List Nat)
  | wait_for_tiny_msg (m : TinyMsg)
  | session_cachePassphrase (passphrase : List Nat)
  | call_msg_initialize_handler
  | call_msg_failure_handler (code : FailureType) (text : List Nat)
  deriving DecidableEq, Repr

/-- Everything outside the two public functions' locals: the file's static flag,
the answers of the collaborators, the messages still to come and the calls
made so far. -/
structure World where
  passphrase_canceled_by_init : Bool
  passphrase_protected : Bool
  session_passphrase : Option (List Nat)
  incoming : List TinyMsg
  trace : List Event
  deriving DecidableEq, Repr

/-! ## C strings -/

/-- The C string found at the start of a memory region. -/
def cstr (m : List Nat) : List Nat := m.takeWhile (fun b => b ≠ 0)

/-- Embedding of `strlen`. -/
def strlen (m : List Nat) : Nat := (cstr m).length

/-- Embedding of `strcpy(dst, src)`: the string at `src` and its terminating
NUL are stored from the start of `dst`, whatever the size of the destination
array; the bytes after them are left as they were. -/
def strcpy (dst src : List Nat) : List Nat :=
  cstr src ++ 0 :: dst.drop (strlen src + 1)

/-! ## Collaborators -/

/-- Embedding of `memset(&resp, 0, n)` on a fresh struct of `n` bytes. -/
def memset_zero (n : Nat) : List Nat := List.replicate n 0

/-- Call of `msg_write`, recorded. -/
def msg_write (msg_type : MessageType) (payload : List Nat) (w : World) : World :=
  { w with trace := w.trace ++ [Event.msg_write msg_type payload] }

/-- Call of `wait_for_tiny_msg`: takes the next message of the host, or never
returns when the host sends none. -/
def wait_for_tiny_msg (w : World) : Option (TinyMsg × World) :=
  match w.incoming with
  | [] => none
  | m :: rest =>
    some (m, { w with incoming := rest, trace := w.trace ++ [Event.wait_for_tiny_msg m] })

/-- Answer of `storage_get_passphrase_protected()`. -/
def storage_get_passphrase_protected (w : World) : Bool := w.passphrase_protected

/-- Modelled from the spec: `session_isPassphraseCached` of the session cache
(not in the source), which reports whether a passphrase is already cached for
this session. -/
def session_isPassphraseCached (w : World) : Bool := w.session_passphrase.isSome

/-- Modelled from the spec: `session_cachePassphrase` of the session cache (not
in the source), which accepts a passphrase to cache.  The argument is the C
string at the pointer passed. -/
def session_cachePassphrase (passphrase : List Nat) (w : World) : World :=
  { w with
    session_passphrase := some (cstr passphrase)
    trace := w.trace ++ [Event.session_cachePassphrase (cstr passphrase)] }

/-- Call of `call_msg_initialize_handler`, recorded. -/
def call_msg_initialize_handler (w : World) : World :=
  { w with trace := w.trace ++ [Event.call_msg_initialize_handler] }

/-- Call of `call_msg_failure_handler`, recorded. -/
def call_msg_failure_handler (code : FailureType) (text : List Nat) (w : World) : World :=
  { w with trace := w.trace ++ [Event.call_msg_failure_handler code text] }

/-! ## The functions of `passphrase_sm.c` -/

/-- Embedding of `send_passphrase_request`; `sizeof_PassphraseRequest` is the size
of the generated struct, which the source does not show. -/
def send_passphrase_request (sizeof_PassphraseRequest : Nat) (w : World) : World :=
  let resp := memset_zero sizeof_PassphraseRequest
  msg_write MessageType.MessageType_PassphraseRequest resp w

/-- Embedding of `wait_for_passphrase_ack`: one receive, then the three tests in
the order of the source.  `ppa->passphrase` is the start of `msg_tiny_buf`. -/
def wait_for_passphrase_ack (passphrase_info : PassphraseInfo) (w : World) :
    Option (PassphraseInfo × World) :=
  match wait_for_tiny_msg w with
  | none => none
  | some (m, w1) =>
    let tiny_msg := m.msg_type
    let i1 : PassphraseInfo :=
      if tiny_msg = MessageType.MessageType_PassphraseAck then
        { passphrase_ack_msg := PassphraseAckMsg.PASSPHRASE_ACK_RECEIVED
          passphrase := strcpy passphrase_info.passphrase m.msg_tiny_buf }
      else passphrase_info
    let i2 : PassphraseInfo :=
      if tiny_msg = MessageType.MessageType_Cancel then
        { i1 with passphrase_ack_msg := PassphraseAckMsg.PASSPHRASE_ACK_CANCEL }
      else i1
    let i3 : PassphraseInfo :=
      if tiny_msg = MessageType.MessageType_Initialize then
        { i2 with passphrase_ack_msg := PassphraseAckMsg.PASSPHRASE_ACK_CANCEL_BY_INIT }
      else i2
    some (i3, w1)

/-- Embedding of `run_passphrase_state`: one step of the machine.  The switch has
no case for `PASSPHRASE_FINISHED`. -/
def run_passphrase_state (sizeof_PassphraseRequest : Nat)
    (passphrase_state : PassphraseState) (passphrase_info : PassphraseInfo) (w : World) :
    Option (PassphraseState × PassphraseInfo × World) :=
  match passphrase_state with
  | PassphraseState.PASSPHRASE_REQUEST =>
    some (PassphraseState.PASSPHRASE_WAITING, passphrase_info,
      send_passphrase_request sizeof_PassphraseRequest w)
  | PassphraseState.PASSPHRASE_WAITING =>
    match wait_for_passphrase_ack passphrase_info w with
    | none => none
    | some (info1, w1) =>
      if info1.passphrase_ack_msg ≠ PassphraseAckMsg.PASSPHRASE_ACK_WAITING then
        some (PassphraseState.PASSPHRASE_FINISHED, info1, w1)
      else
        some (PassphraseState.PASSPHRASE_WAITING, info1, w1)
  | PassphraseState.PASSPHRASE_FINISHED => some (passphrase_state, passphrase_info, w)

/-- The `while(1)` loop of `passphrase_request`: step, then leave when the state is
`PASSPHRASE_FINISHED`. -/
def run_sm (sizeof_PassphraseRequest : Nat) :
    Nat → PassphraseState → PassphraseInfo → World → Option (PassphraseInfo × World)
  | 0, _, _, _ => none
  | fuel + 1, passphrase_state, passphrase_info, w =>
    match run_passphrase_state sizeof_PassphraseRequest passphrase_state passphrase_info w with
    | none => none
    | some (st1, info1, w1) =>
      if st1 = PassphraseState.PASSPHRASE_FINISHED then some (info1, w1)
      else run_sm sizeof_PassphraseRequest fuel st1 info1 w1

/-- Embedding of `passphrase_request`.  Returns `ret`, the struct as the machine left
it, and the world. -/
def passphrase_request (sizeof_PassphraseRequest fuel : Nat)
    (passphrase_info : PassphraseInfo) (w : World) : Option (Bool × PassphraseInfo × World) :=
  let w0 := { w with passphrase_canceled_by_init := false }
  match run_sm sizeof_PassphraseRequest fuel PassphraseState.PASSPHRASE_REQUEST
      passphrase_info w0 with
  | none => none
  | some (info1, w1) =>
    if info1.passphrase_ack_msg = PassphraseAckMsg.PASSPHRASE_ACK_RECEIVED then
      some (true, info1, w1)
    else if info1.passphrase_ack_msg = PassphraseAckMsg.PASSPHRASE_ACK_CANCEL_BY_INIT then
      some (false, info1, { w1 with passphrase_canceled_by_init := true })
    else
      some (false, info1, w1)

/-- Embedding of `passphrase_protect`.  The local `passphrase_info` is declared
without an initialiser, so what it holds at entry is an argument. -/
def passphrase_protect (sizeof_PassphraseRequest fuel : Nat)
    (passphrase_info : PassphraseInfo) (w : World) : Option (Bool × World) :=
  if storage_get_passphrase_protected w && !session_isPassphraseCached w then
    match passphrase_request sizeof_PassphraseRequest fuel passphrase_info w with
    | none => none
    | some (true, info1, w1) => some (true, session_cachePassphrase info1.passphrase w1)
    | some (false, _, w1) => some (false, w1)
  else
    some (true, w)

/-- Embedding of `cancel_passphrase`. -/
def cancel_passphrase (code : FailureType) (text : List Nat) (w : World) : World :=
  let w1 :=
    if w.passphrase_canceled_by_init then call_msg_initialize_handler w
    else call_msg_failure_handler code text w
  { w1 with passphrase_canceled_by_init := false }

/-! ## Vocabulary of the statements -/

/-- A tiny message of a type that `wait_for_passphrase_ack` tests for none of. -/
def unrecognised (m : TinyMsg) : Prop :=
  m.msg_type ≠ MessageType.MessageType_PassphraseAck ∧
  m.msg_type ≠ MessageType.MessageType_Cancel ∧
  m.msg_type ≠ MessageType.MessageType_Initialize

instance : DecidablePred unrecognised := fun m =>
  inferInstanceAs (Decidable (m.msg_type ≠ MessageType.MessageType_PassphraseAck ∧
    m.msg_type ≠ MessageType.MessageType_Cancel ∧
    m.msg_type ≠ MessageType.MessageType_Initialize))

/-- The receive events of a run of messages. -/
def received (ms : List TinyMsg) : List Event := ms.map Event.wait_for_tiny_msg

/-- The one request written by `send_passphrase_request`. -/
def request_event (sizeof_PassphraseRequest : Nat) : Event :=
  Event.msg_write MessageType.MessageType_PassphraseRequest
    (List.replicate sizeof_PassphraseRequest 0)

/-- A given number of `run_passphrase_state` steps, one after the other. -/
def run_steps (sizeof_PassphraseRequest : Nat) :
    Nat → PassphraseState → PassphraseInfo → World →
      Option (PassphraseState × PassphraseInfo × World)
  | 0, passphrase_state, passphrase_info, w => some (passphrase_state, passphrase_info, w)
  | k + 1, passphrase_state, passphrase_info, w =>
    match run_passphrase_state sizeof_PassphraseRequest passphrase_state passphrase_info w with
    | none => none
    | some (st1, info1, w1) => run_steps sizeof_PassphraseRequest k st1 info1 w1

/-- The number of `session_cachePassphrase` calls in a trace. -/
def cache_calls (t : List Event) : Nat :=
  t.countP (fun e =>
    match e with
    | Event.session_cachePassphrase _ => true
    | _ => false)

/-! ## Concrete inputs used by the worked examples -/

/-- The bytes of the string "hunter2". -/
def hunter2 : List Nat := [104, 117, 110, 116, 101, 114, 50]

/-- The bytes of the string "msg". -/
def text_msg : List Nat := [109, 115, 103]

/-- A `PassphraseAck` whose 64-byte buffer holds the string `s` padded with NUL. -/
def ack_msg (s : List Nat) : TinyMsg :=
  ⟨MessageType.MessageType_PassphraseAck, s ++ 0 :: List.replicate (63 - s.length) 0⟩

/-- A `Cancel`; it has no payload. -/
def cancel_msg : TinyMsg := ⟨MessageType.MessageType_Cancel, List.replicate 64 0⟩

/-- An `Initialize`; it has no payload. -/
def init_msg : TinyMsg := ⟨MessageType.MessageType_Initialize, List.replicate 64 0⟩

/-- A tiny message of a type the wait does not test for. -/
def other_msg : TinyMsg := ⟨MessageType.MessageType_Other 27, List.replicate 64 0⟩

/-- A device with protection enabled and nothing cached, no call made yet. -/
def fresh_world (flag : Bool) (incoming : List TinyMsg) : World :=
  { passphrase_canceled_by_init := flag
    passphrase_protected := true
    session_passphrase := none
    incoming := incoming
    trace := [] }

/-- A local `PassphraseInfo` that happens to start pending, its 51 bytes zero. -/
def pending_info : PassphraseInfo :=
  ⟨PassphraseAckMsg.PASSPHRASE_ACK_WAITING, List.replicate 51 0⟩

/-- The bytes of the string "junk". -/
def text_junk : List Nat := [106, 117, 110, 107]

/-- A local `PassphraseInfo` whose stack bytes happen to read as a received answer
holding the string "junk". -/
def stale_info : PassphraseInfo :=
  ⟨PassphraseAckMsg.PASSPHRASE_ACK_RECEIVED, text_junk ++ List.replicate 47 0⟩

/-- A local `PassphraseInfo` whose stack bytes are all `0xEE`: the outcome field
reads as no enumerator. -/
def garbage_info : PassphraseInfo :=
  ⟨PassphraseAckMsg.NOT_AN_ENUMERATOR 0xEEEEEEEE, List.replicate 51 0xEE⟩

/-- A device with protection disabled whose flag was left set by an earlier
attempt. -/
def leaked_world : World :=
  { passphrase_canceled_by_init := true
    passphrase_protected := false
    session_passphrase := none
    incoming := []
    trace := [] }

/-! ## Lemmas on C strings -/

theorem cstr_append_nul (s t : List Nat) (hs : ∀ b ∈ s, b ≠ 0) : cstr (s ++ 0 :: t) = s := by
  induction s with
  | nil => simp [cstr]
  | cons a s ih =>
    have ha : a ≠ 0 := hs a (by simp)
    have ih1 := ih (fun b hb => hs b (by simp [hb]))
    simp only [cstr] at ih1 ⊢
    simp only [List.cons_append, List.takeWhile_cons, ha, ne_eq, not_false_eq_true,
      decide_True, if_true, ih1]

theorem cstr_no_nul (m : List Nat) : ∀ b ∈ cstr m, b ≠ 0 := by
  intro b hb
  have := List.mem_takeWhile_imp hb
  simpa using this

theorem cstr_strcpy (dst src : List Nat) : cstr (strcpy dst src) = cstr src := by
  unfold strcpy
  exact cstr_append_nul _ _ (cstr_no_nul src)

theorem strcpy_carried (dst s t : List Nat) (hs : ∀ b ∈ s, b ≠ 0) :
    strcpy dst (s ++ 0 :: t) = s ++ 0 :: dst.drop (s.length + 1) := by
  simp [strcpy, strlen, cstr_append_nul s t hs]

/-! ## Lemmas on one receive -/

theorem wait_for_passphrase_ack_unrecognised (info : PassphraseInfo) (w : World)
    (m : TinyMsg) (rest : List TinyMsg) (hin : w.incoming = m :: rest) (hm : unrecognised m) :
    wait_for_passphrase_ack info w =
      some (info, { w with incoming := rest, trace := w.trace ++ [Event.wait_for_tiny_msg m] }) := by
  obtain ⟨h1, h2, h3⟩ := hm
  simp [wait_for_passphrase_ack, wait_for_tiny_msg, hin, h1, h2, h3]

theorem wait_for_passphrase_ack_ack (info : PassphraseInfo) (w : World)
    (m : TinyMsg) (rest : List TinyMsg) (hin : w.incoming = m :: rest)
    (hm : m.msg_type = MessageType.MessageType_PassphraseAck) :
    wait_for_passphrase_ack info w =
      some ({ passphrase_ack_msg := PassphraseAckMsg.PASSPHRASE_ACK_RECEIVED
              passphrase := strcpy info.passphrase m.msg_tiny_buf },
            { w with incoming := rest, trace := w.trace ++ [Event.wait_for_tiny_msg m] }) := by
  simp [wait_for_passphrase_ack, wait_for_tiny_msg, hin, hm]

theorem wait_for_passphrase_ack_cancel (info : PassphraseInfo) (w : World)
    (m : TinyMsg) (rest : List TinyMsg) (hin : w.incoming = m :: rest)
    (hm : m.msg_type = MessageType.MessageType_Cancel) :
    wait_for_passphrase_ack info w =
      some ({ info with passphrase_ack_msg := PassphraseAckMsg.PASSPHRASE_ACK_CANCEL },
            { w with incoming := rest, trace := w.trace ++ [Event.wait_for_tiny_msg m] }) := by
  simp [wait_for_passphrase_ack, wait_for_tiny_msg, hin, hm]

theorem wait_for_passphrase_ack_init (info : PassphraseInfo) (w : World)
    (m : TinyMsg) (rest : List TinyMsg) (hin : w.incoming = m :: rest)
    (hm : m.msg_type = MessageType.MessageType_Initialize) :
    wait_for_passphrase_ack info w =
      some ({ info with passphrase_ack_msg := PassphraseAckMsg.PASSPHRASE_ACK_CANCEL_BY_INIT },
            { w with incoming := rest, trace := w.trace ++ [Event.wait_for_tiny_msg m] }) := by
  simp [wait_for_passphrase_ack, wait_for_tiny_msg, hin, hm]

/-! ## Lemmas on the loop -/

theorem run_sm_request (sz fuel : Nat) (info : PassphraseInfo) (w : World) :
    run_sm sz (fuel + 1) PassphraseState.PASSPHRASE_REQUEST info w =
      run_sm sz fuel PassphraseState.PASSPHRASE_WAITING info (send_passphrase_request sz w) := by
  simp [run_sm, run_passphrase_state]

theorem run_sm_waiting_unrecognised (sz fuel : Nat) (info : PassphraseInfo) (w : World)
    (m : TinyMsg) (rest : List TinyMsg) (hin : w.incoming = m :: rest) (hm : unrecognised m)
    (hpend : info.passphrase_ack_msg = PassphraseAckMsg.PASSPHRASE_ACK_WAITING) :
    run_sm sz (fuel + 1) PassphraseState.PASSPHRASE_WAITING info w =
      run_sm sz fuel PassphraseState.PASSPHRASE_WAITING info
        { w with incoming := rest, trace := w.trace ++ [Event.wait_for_tiny_msg m] } := by
  simp [run_sm, run_passphrase_state, wait_for_passphrase_ack_unrecognised info w m rest hin hm,
    hpend]

theorem run_sm_waiting_skip (sz : Nat) (pre : List TinyMsg) :
    ∀ (fuel : Nat) (info : PassphraseInfo) (w : World) (tail : List TinyMsg),
      (info.passphrase_ack_msg = PassphraseAckMsg.PASSPHRASE_ACK_WAITING ∨ pre = []) →
      (∀ x ∈ pre, unrecognised x) → w.incoming = pre ++ tail →
      run_sm sz (pre.length + fuel) PassphraseState.PASSPHRASE_WAITING info w =
        run_sm sz fuel PassphraseState.PASSPHRASE_WAITING info
          { w with incoming := tail, trace := w.trace ++ received pre } := by
  induction pre with
  | nil =>
    intro fuel info w tail _ _ hin
    have hw : ({ w with incoming := tail, trace := w.trace ++ received [] } : World) = w := by
      cases w; simp_all [received]
    simp [hw]
  | cons x pre ih =>
    intro fuel info w tail hstart hpre hin
    have hpend : info.passphrase_ack_msg = PassphraseAckMsg.PASSPHRASE_ACK_WAITING := by
      rcases hstart with h | h
      · exact h
      · cases h
    have hx : unrecognised x := hpre x (by simp)
    have hlen : (x :: pre).length + fuel = (pre.length + fuel) + 1 := by
      simp only [List.length_cons]; omega
    rw [hlen, run_sm_waiting_unrecognised sz _ info w x (pre ++ tail) (by simpa using hin) hx hpend]
    rw [ih fuel info _ tail (Or.inl hpend) (fun y hy => hpre y (by simp [hy])) rfl]
    simp [received, List.append_assoc]

theorem run_sm_waiting_last (sz fuel : Nat) (info : PassphraseInfo) (w : World)
    (m : TinyMsg) (rest : List TinyMsg) (hin : w.incoming = m :: rest) (hm : ¬ unrecognised m) :
    run_sm sz (fuel + 1) PassphraseState.PASSPHRASE_WAITING info w =
      wait_for_passphrase_ack info w := by
  have hcases : m.msg_type = MessageType.MessageType_PassphraseAck ∨
      m.msg_type = MessageType.MessageType_Cancel ∨
      m.msg_type = MessageType.MessageType_Initialize := by
    unfold unrecognised at hm
    by_contra hne
    push_neg at hne
    exact hm hne
  rcases hcases with h | h | h
  · simp [run_sm, run_passphrase_state, wait_for_passphrase_ack_ack info w m rest hin h]
  · simp [run_sm, run_passphrase_state, wait_for_passphrase_ack_cancel info w m rest hin h]
  · simp [run_sm, run_passphrase_state, wait_for_passphrase_ack_init info w m rest hin h]

/-- The machine run by `passphrase_request`, from `PASSPHRASE_REQUEST` to the receive
that ends it: one request is written, the unrecognised messages are taken one
by one, and the loop returns what the last receive leaves. -/
theorem run_sm_run (sz fuel : Nat) (info : PassphraseInfo) (w : World)
    (pre : List TinyMsg) (m : TinyMsg) (rest : List TinyMsg)
    (hin : w.incoming = pre ++ m :: rest) (hpre : ∀ x ∈ pre, unrecognised x)
    (hm : ¬ unrecognised m)
    (hstart : info.passphrase_ack_msg = PassphraseAckMsg.PASSPHRASE_ACK_WAITING ∨ pre = [])
    (hfuel : pre.length + 2 ≤ fuel) :
    run_sm sz fuel PassphraseState.PASSPHRASE_REQUEST info w =
      wait_for_passphrase_ack info
        { w with incoming := m :: rest
                 trace := w.trace ++ request_event sz :: received pre } := by
  obtain ⟨k, rfl⟩ := Nat.exists_eq_add_of_le hfuel
  have hf : pre.length + 2 + k = (pre.length + (k + 1)) + 1 := by omega
  rw [hf, run_sm_request]
  rw [run_sm_waiting_skip sz pre (k + 1) info (send_passphrase_request sz w) (m :: rest) hstart hpre
    (by simpa [send_passphrase_request, msg_write] using hin)]
  rw [run_sm_waiting_last sz k info _ m rest rfl hm]
  simp [send_passphrase_request, msg_write, memset_zero, request_event, List.append_assoc]

/-! ## `passphrase_protect` on the path that runs the interaction -/

theorem passphrase_protect_ack (sz fuel : Nat) (junk : PassphraseInfo) (w : World)
    (pre : List TinyMsg) (m : TinyMsg) (rest : List TinyMsg)
    (hprot : storage_get_passphrase_protected w = true)
    (hnc : session_isPassphraseCached w = false)
    (hin : w.incoming = pre ++ m :: rest) (hpre : ∀ x ∈ pre, unrecognised x)
    (hm : m.msg_type = MessageType.MessageType_PassphraseAck)
    (hstart : junk.passphrase_ack_msg = PassphraseAckMsg.PASSPHRASE_ACK_WAITING ∨ pre = [])
    (hfuel : pre.length + 2 ≤ fuel) :
    passphrase_protect sz fuel junk w =
      some (true,
        { w with
          passphrase_canceled_by_init := false
          session_passphrase := some (cstr m.msg_tiny_buf)
          incoming := rest
          trace := w.trace ++ request_event sz :: received pre ++
            [Event.wait_for_tiny_msg m, Event.session_cachePassphrase (cstr m.msg_tiny_buf)] }) := by
  have hrec : ¬ unrecognised m := fun h => h.1 hm
  have hrun := run_sm_run sz fuel junk { w with passphrase_canceled_by_init := false }
    pre m rest hin hpre hrec hstart hfuel
  rw [wait_for_passphrase_ack_ack junk _ m rest rfl hm] at hrun
  simp only [passphrase_protect, hprot, hnc, passphrase_request, hrun]
  simp [session_cachePassphrase, cstr_strcpy, List.append_assoc]

theorem passphrase_protect_cancel (sz fuel : Nat) (junk : PassphraseInfo) (w : World)
    (pre : List TinyMsg) (m : TinyMsg) (rest : List TinyMsg)
    (hprot : storage_get_passphrase_protected w = true)
    (hnc : session_isPassphraseCached w = false)
    (hin : w.incoming = pre ++ m :: rest) (hpre : ∀ x ∈ pre, unrecognised x)
    (hm : m.msg_type = MessageType.MessageType_Cancel)
    (hstart : junk.passphrase_ack_msg = PassphraseAckMsg.PASSPHRASE_ACK_WAITING ∨ pre = [])
    (hfuel : pre.length + 2 ≤ fuel) :
    passphrase_protect sz fuel junk w =
      some (false,
        { w with
          passphrase_canceled_by_init := false
          incoming := rest
          trace := w.trace ++ request_event sz :: received pre ++
            [Event.wait_for_tiny_msg m] }) := by
  have hrec : ¬ unrecognised m := fun h => h.2.1 hm
  have hrun := run_sm_run sz fuel junk { w with passphrase_canceled_by_init := false }
    pre m rest hin hpre hrec hstart hfuel
  rw [wait_for_passphrase_ack_cancel junk _ m rest rfl hm] at hrun
  simp only [passphrase_protect, hprot, hnc, passphrase_request, hrun]
  simp [List.append_assoc]

theorem passphrase_protect_init (sz fuel : Nat) (junk : PassphraseInfo) (w : World)
    (pre : List TinyMsg) (m : TinyMsg) (rest : List TinyMsg)
    (hprot : storage_get_passphrase_protected w = true)
    (hnc : session_isPassphraseCached w = false)
    (hin : w.incoming = pre ++ m :: rest) (hpre : ∀ x ∈ pre, unrecognised x)
    (hm : m.msg_type = MessageType.MessageType_Initialize)
    (hstart : junk.passphrase_ack_msg = PassphraseAckMsg.PASSPHRASE_ACK_WAITING ∨ pre = [])
    (hfuel : pre.length + 2 ≤ fuel) :
    passphrase_protect sz fuel junk w =
      some (false,
        { w with
          passphrase_canceled_by_init := true
          incoming := rest
          trace := w.trace ++ request_event sz :: received pre ++
            [Event.wait_for_tiny_msg m] }) := by
  have hrec : ¬ unrecognised m := fun h => h.2.2 hm
  have hrun := run_sm_run sz fuel junk { w with passphrase_canceled_by_init := false }
    pre m rest hin hpre hrec hstart hfuel
  rw [wait_for_passphrase_ack_init junk _ m rest rfl hm] at hrun
  simp only [passphrase_protect, hprot, hnc, passphrase_request, hrun]
  simp [List.append_assoc]

/-! ## Claims -/

/-- C1: when `storage_get_passphrase_protected()` is false or
`session_isPassphraseCached()` is true, `passphrase_protect` returns true and
leaves the world as it was: no call is added to the trace (no message is
written, nothing is received, `session_cachePassphrase` is not called) and no
incoming message is taken. -/
theorem passphrase_protect_fast_path (sz fuel : Nat) (junk : PassphraseInfo) (w : World)
    (h : storage_get_passphrase_protected w = false ∨ session_isPassphraseCached w = true) :
    passphrase_protect sz fuel junk w = some (true, w) ∧
      ∀ r w1, passphrase_protect sz fuel junk w = some (r, w1) →
        w1.trace = w.trace ∧ w1.incoming = w.incoming ∧
        w1.session_passphrase = w.session_passphrase := by
  have hret : passphrase_protect sz fuel junk w = some (true, w) := by
    rcases h with h | h <;> simp [passphrase_protect, h]
  refine ⟨hret, ?_⟩
  intro r w1 h1
  rw [hret] at h1
  cases h1
  exact ⟨rfl, rfl, rfl⟩

theorem passphrase_protect_fast_path_witness :
    passphrase_protect 1 0 pending_info
        { fresh_world true [ack_msg hunter2] with session_passphrase := some hunter2 } =
      some (true, { fresh_world true [ack_msg hunter2] with session_passphrase := some hunter2 }) :=
  (passphrase_protect_fast_path 1 0 pending_info
    { fresh_world true [ack_msg hunter2] with session_passphrase := some hunter2 }
    (Or.inr (by decide))).1

/-- C2: with protection enabled and nothing cached, whatever the local struct holds
at entry, when the first tiny message is a `PassphraseAck` carrying a secret `s`
that fits an array of `cap` bytes, `passphrase_protect` returns true, having
written exactly one `PassphraseRequest`, received that one message and called
`session_cachePassphrase` with exactly `s`; the bytes stored by the copy stay
within the array. -/
theorem passphrase_protect_caches_secret (sz fuel cap : Nat) (junk : PassphraseInfo)
    (w : World) (s tailbuf : List Nat) (rest : List TinyMsg)
    (hprot : storage_get_passphrase_protected w = true)
    (hnc : session_isPassphraseCached w = false)
    (hs : ∀ b ∈ s, b ≠ 0) (hfit : s.length + 1 ≤ cap)
    (hin : w.incoming = ⟨MessageType.MessageType_PassphraseAck, s ++ 0 :: tailbuf⟩ :: rest)
    (hfuel : 2 ≤ fuel) :
    passphrase_protect sz fuel junk w =
      some (true,
        { w with
          passphrase_canceled_by_init := false
          session_passphrase := some s
          incoming := rest
          trace := w.trace ++
            [Event.msg_write MessageType.MessageType_PassphraseRequest (List.replicate sz 0),
             Event.wait_for_tiny_msg ⟨MessageType.MessageType_PassphraseAck, s ++ 0 :: tailbuf⟩,
             Event.session_cachePassphrase s] }) ∧
      strlen (s ++ 0 :: tailbuf) + 1 ≤ cap := by
  have h := passphrase_protect_ack sz fuel junk w []
    ⟨MessageType.MessageType_PassphraseAck, s ++ 0 :: tailbuf⟩ rest hprot hnc
    (by simpa using hin) (by simp) rfl (Or.inr rfl) (by simpa using hfuel)
  have hc : cstr (s ++ 0 :: tailbuf) = s := cstr_append_nul s tailbuf hs
  refine ⟨?_, ?_⟩
  · rw [h]; simp [hc, received, request_event]
  · simpa [strlen, hc] using hfit

theorem passphrase_protect_caches_secret_witness :
    passphrase_protect 1 2 ⟨PassphraseAckMsg.PASSPHRASE_ACK_CANCEL, List.replicate 51 255⟩
        (fresh_world false [ack_msg hunter2]) =
      some (true,
        { passphrase_canceled_by_init := false
          passphrase_protected := true
          session_passphrase := some hunter2
          incoming := []
          trace :=
            [Event.msg_write MessageType.MessageType_PassphraseRequest [0],
             Event.wait_for_tiny_msg (ack_msg hunter2),
             Event.session_cachePassphrase hunter2] }) :=
  (passphrase_protect_caches_secret 1 2 51
    ⟨PassphraseAckMsg.PASSPHRASE_ACK_CANCEL, List.replicate 51 255⟩
    (fresh_world false [ack_msg hunter2]) hunter2 (List.replicate 56 0) []
    (by decide) (by decide) (by decide) (by decide) (by decide) (by decide)).1

/-- C3: with protection enabled and nothing cached, whatever the flag held before,
when the message that ends the wait is `Cancel` (received first, or after
unrecognised messages by a struct that starts pending), `passphrase_protect`
returns false, and a `cancel_passphrase(c, t)` called next makes exactly one call,
`call_msg_failure_handler(c, t)`, hence none to `call_msg_initialize_handler`. -/
theorem cancel_then_failure_handler (sz fuel : Nat) (junk : PassphraseInfo) (w : World)
    (pre : List TinyMsg) (m : TinyMsg) (rest : List TinyMsg) (c : FailureType) (t : List Nat)
    (hprot : storage_get_passphrase_protected w = true)
    (hnc : session_isPassphraseCached w = false)
    (hin : w.incoming = pre ++ m :: rest) (hpre : ∀ x ∈ pre, unrecognised x)
    (hm : m.msg_type = MessageType.MessageType_Cancel)
    (hstart : junk.passphrase_ack_msg = PassphraseAckMsg.PASSPHRASE_ACK_WAITING ∨ pre = [])
    (hfuel : pre.length + 2 ≤ fuel) :
    ∃ w1, passphrase_protect sz fuel junk w = some (false, w1) ∧
      (cancel_passphrase c t w1).trace = w1.trace ++ [Event.call_msg_failure_handler c t] ∧
      Event.call_msg_initialize_handler ∉
        (cancel_passphrase c t w1).trace.drop w1.trace.length := by
  refine ⟨_, passphrase_protect_cancel sz fuel junk w pre m rest hprot hnc hin hpre hm hstart
    hfuel, ?_, ?_⟩ <;>
  simp [cancel_passphrase, call_msg_failure_handler]

theorem cancel_then_failure_handler_witness :
    ∃ w1, passphrase_protect 1 3 pending_info (fresh_world true [other_msg, cancel_msg]) =
        some (false, w1) ∧
      (cancel_passphrase 4 text_msg w1).trace =
        w1.trace ++ [Event.call_msg_failure_handler 4 text_msg] ∧
      Event.call_msg_initialize_handler ∉
        (cancel_passphrase 4 text_msg w1).trace.drop w1.trace.length :=
  cancel_then_failure_handler 1 3 pending_info (fresh_world true [other_msg, cancel_msg])
    [other_msg] cancel_msg [] 4 text_msg (by decide) (by decide) (by decide) (by decide)
    (by decide) (Or.inl (by decide)) (by decide)

/-- C4: with protection enabled and nothing cached, when the message that ends the
wait is `Initialize` (received first, or after unrecognised messages by a struct
that starts pending), `passphrase_protect` returns false, and a
`cancel_passphrase(c, t)` called next makes exactly one call,
`call_msg_initialize_handler`, none to `call_msg_failure_handler`, and leaves the
same world for every two choices of `(c, t)`. -/
theorem init_then_initialize_handler (sz fuel : Nat) (junk : PassphraseInfo) (w : World)
    (pre : List TinyMsg) (m : TinyMsg) (rest : List TinyMsg)
    (hprot : storage_get_passphrase_protected w = true)
    (hnc : session_isPassphraseCached w = false)
    (hin : w.incoming = pre ++ m :: rest) (hpre : ∀ x ∈ pre, unrecognised x)
    (hm : m.msg_type = MessageType.MessageType_Initialize)
    (hstart : junk.passphrase_ack_msg = PassphraseAckMsg.PASSPHRASE_ACK_WAITING ∨ pre = [])
    (hfuel : pre.length + 2 ≤ fuel) :
    ∃ w1, passphrase_protect sz fuel junk w = some (false, w1) ∧
      (∀ (c : FailureType) (t : List Nat),
        (cancel_passphrase c t w1).trace = w1.trace ++ [Event.call_msg_initialize_handler]) ∧
      (∀ (c c2 : FailureType) (t t2 : List Nat),
        cancel_passphrase c t w1 = cancel_passphrase c2 t2 w1) := by
  refine ⟨_, passphrase_protect_init sz fuel junk w pre m rest hprot hnc hin hpre hm hstart
    hfuel, ?_, ?_⟩ <;>
  simp [cancel_passphrase, call_msg_initialize_handler]

theorem init_then_initialize_handler_witness :
    ∃ w1, passphrase_protect 1 3 pending_info (fresh_world false [other_msg, init_msg]) =
        some (false, w1) ∧
      (∀ (c : FailureType) (t : List Nat),
        (cancel_passphrase c t w1).trace = w1.trace ++ [Event.call_msg_initialize_handler]) ∧
      (∀ (c c2 : FailureType) (t t2 : List Nat),
        cancel_passphrase c t w1 = cancel_passphrase c2 t2 w1) :=
  init_then_initialize_handler 1 3 pending_info (fresh_world false [other_msg, init_msg])
    [other_msg] init_msg [] (by decide) (by decide) (by decide) (by decide)
    (by decide) (Or.inl (by decide)) (by decide)

/-- C5, as the code behaves: at a device with protection disabled and the flag set,
`passphrase_protect` returns true through the fast path and the flag is still
set, so the `cancel_passphrase` that follows calls `call_msg_initialize_handler`
and not `call_msg_failure_handler`. -/
theorem flag_survives_fast_path :
    passphrase_protect 1 2 pending_info leaked_world = some (true, leaked_world) ∧
      leaked_world.passphrase_canceled_by_init = true ∧
      (cancel_passphrase 4 text_msg leaked_world).trace =
        [Event.call_msg_initialize_handler] ∧
      Event.call_msg_failure_handler 4 text_msg ∉
        (cancel_passphrase 4 text_msg leaked_world).trace := by
  decide

/-- C5, amended: the flag is reset only by a call that runs the interaction, at the
entry of `passphrase_request`, so the result of such a call is the same
whatever the flag held before.  On the disabled/cached fast path the call
returns true and leaves the flag as it was: the `cancel_passphrase(c, t)` that
follows calls `call_msg_initialize_handler` when the flag was set before the
call and `call_msg_failure_handler(c, t)` when it was not. -/
theorem flag_reset_only_by_interaction (sz fuel : Nat) (junk : PassphraseInfo) (w : World)
    (c : FailureType) (t : List Nat) :
    ((storage_get_passphrase_protected w = false ∨ session_isPassphraseCached w = true) →
      passphrase_protect sz fuel junk w = some (true, w) ∧
      (cancel_passphrase c t w).trace = w.trace ++
        [if w.passphrase_canceled_by_init then Event.call_msg_initialize_handler
         else Event.call_msg_failure_handler c t]) ∧
    ((storage_get_passphrase_protected w = true ∧ session_isPassphraseCached w = false) →
      passphrase_protect sz fuel junk w =
        passphrase_protect sz fuel junk { w with passphrase_canceled_by_init := false }) := by
  constructor
  · intro h
    constructor
    · rcases h with h | h <;> simp [passphrase_protect, h]
    · cases hf : w.passphrase_canceled_by_init <;>
        simp [cancel_passphrase, call_msg_initialize_handler, call_msg_failure_handler, hf]
  · rintro ⟨hprot, hnc⟩
    have hprot2 : storage_get_passphrase_protected
        { w with passphrase_canceled_by_init := false } = true := hprot
    have hnc2 : session_isPassphraseCached
        { w with passphrase_canceled_by_init := false } = false := hnc
    simp [passphrase_protect, hprot, hnc, hprot2, hnc2, passphrase_request]

theorem flag_reset_only_by_interaction_witness :
    (passphrase_protect 1 2 pending_info leaked_world = some (true, leaked_world) ∧
      (cancel_passphrase 4 text_msg leaked_world).trace = leaked_world.trace ++
        [if leaked_world.passphrase_canceled_by_init then Event.call_msg_initialize_handler
         else Event.call_msg_failure_handler 4 text_msg]) ∧
    passphrase_protect 1 2 pending_info (fresh_world true [cancel_msg]) =
      passphrase_protect 1 2 pending_info
        { fresh_world true [cancel_msg] with passphrase_canceled_by_init := false } :=
  ⟨(flag_reset_only_by_interaction 1 2 pending_info leaked_world 4 text_msg).1
      (Or.inl (by decide)),
   (flag_reset_only_by_interaction 1 2 pending_info (fresh_world true [cancel_msg]) 4
      text_msg).2 ⟨by decide, by decide⟩⟩

/-- C6, as the code behaves: for an array of any capacity `cap`, a `PassphraseAck`
whose buffer holds `cap` letters and then NUL makes `wait_for_passphrase_ack`
store `cap + 1` bytes from the start of the array: the copy is neither
truncated nor rejected, and the terminating NUL lands on the byte after the
array. -/
theorem wait_for_passphrase_ack_overruns (cap : Nat) (info : PassphraseInfo) (w : World)
    (tailbuf : List Nat) (rest : List TinyMsg) :
    wait_for_passphrase_ack info
        { w with incoming :=
            ⟨MessageType.MessageType_PassphraseAck, List.replicate cap 97 ++ 0 :: tailbuf⟩ ::
              rest } =
      some (⟨PassphraseAckMsg.PASSPHRASE_ACK_RECEIVED,
              List.replicate cap 97 ++ 0 :: info.passphrase.drop (cap + 1)⟩,
            { w with
              incoming := rest
              trace := w.trace ++ [Event.wait_for_tiny_msg
                ⟨MessageType.MessageType_PassphraseAck,
                  List.replicate cap 97 ++ 0 :: tailbuf⟩] }) := by
  have hs : ∀ b ∈ List.replicate cap 97, b ≠ 0 := by
    intro b hb
    rw [List.eq_of_mem_replicate hb]
    decide
  rw [wait_for_passphrase_ack_ack info _ _ rest rfl rfl]
  simp [strcpy_carried _ _ _ hs]

theorem run_steps_unrecognised (sz : Nat) (info : PassphraseInfo)
    (hpend : info.passphrase_ack_msg = PassphraseAckMsg.PASSPHRASE_ACK_WAITING)
    (pre : List TinyMsg) :
    ∀ (w : World) (tail : List TinyMsg), (∀ x ∈ pre, unrecognised x) →
      w.incoming = pre ++ tail →
      run_steps sz pre.length PassphraseState.PASSPHRASE_WAITING info w =
        some (PassphraseState.PASSPHRASE_WAITING, info,
          { w with incoming := tail, trace := w.trace ++ received pre }) := by
  induction pre with
  | nil =>
    intro w tail _ hin
    have hw : ({ w with incoming := tail, trace := w.trace } : World) = w := by
      cases w; simp_all
    simp [run_steps, received, hw]
  | cons x pre ih =>
    intro w tail hpre hin
    have hx : unrecognised x := hpre x (by simp)
    have hstep := wait_for_passphrase_ack_unrecognised info w x (pre ++ tail)
      (by simpa using hin) hx
    have hih := ih { w with incoming := pre ++ tail,
                            trace := w.trace ++ [Event.wait_for_tiny_msg x] } tail
      (fun y hy => hpre y (by simp [hy])) rfl
    simp only [List.length_cons, run_steps, run_passphrase_state, hstep, hpend]
    simpa [received, List.append_assoc] using hih

theorem run_sm_blocks (sz : Nat) (info : PassphraseInfo)
    (hpend : info.passphrase_ack_msg = PassphraseAckMsg.PASSPHRASE_ACK_WAITING)
    (pre : List TinyMsg) :
    ∀ (fuel : Nat) (w : World), (∀ x ∈ pre, unrecognised x) → w.incoming = pre →
      run_sm sz fuel PassphraseState.PASSPHRASE_WAITING info w = none := by
  induction pre with
  | nil =>
    intro fuel w _ hin
    cases fuel with
    | zero => rfl
    | succ k => simp [run_sm, run_passphrase_state, wait_for_passphrase_ack, wait_for_tiny_msg, hin]
  | cons x pre ih =>
    intro fuel w hpre hin
    cases fuel with
    | zero => rfl
    | succ k =>
      rw [run_sm_waiting_unrecognised sz k info w x pre hin (hpre x (by simp)) hpend]
      exact ih k _ (fun y hy => hpre y (by simp [hy])) rfl

/-- C7: in `PASSPHRASE_WAITING` with a pending outcome, a step that receives an
unrecognised message leaves the state and the struct as they were; after a run
of such messages of any length, taken one per step, the machine is still in
`PASSPHRASE_WAITING` with a pending outcome, and when they are all the host
sends the loop of `passphrase_request` does not return, whatever the fuel. -/
theorem unrecognised_keeps_waiting (sz : Nat) (info : PassphraseInfo) (w : World)
    (pre tail : List TinyMsg)
    (hpend : info.passphrase_ack_msg = PassphraseAckMsg.PASSPHRASE_ACK_WAITING)
    (hpre : ∀ x ∈ pre, unrecognised x) (hin : w.incoming = pre ++ tail) :
    (∀ (m : TinyMsg) (rest : List TinyMsg), w.incoming = m :: rest → unrecognised m →
      run_passphrase_state sz PassphraseState.PASSPHRASE_WAITING info w =
        some (PassphraseState.PASSPHRASE_WAITING, info,
          { w with incoming := rest, trace := w.trace ++ [Event.wait_for_tiny_msg m] })) ∧
    run_steps sz pre.length PassphraseState.PASSPHRASE_WAITING info w =
      some (PassphraseState.PASSPHRASE_WAITING, info,
        { w with incoming := tail, trace := w.trace ++ pre.map Event.wait_for_tiny_msg }) ∧
    (tail = [] → ∀ fuel, run_sm sz fuel PassphraseState.PASSPHRASE_WAITING info w = none) := by
  refine ⟨?_, ?_, ?_⟩
  · intro m rest hm hu
    simp [run_passphrase_state, wait_for_passphrase_ack_unrecognised info w m rest hm hu, hpend]
  · simpa [received] using run_steps_unrecognised sz info hpend pre w tail hpre hin
  · intro ht fuel
    exact run_sm_blocks sz info hpend pre fuel w hpre (by simpa [ht] using hin)

theorem unrecognised_keeps_waiting_witness :
    run_steps 1 [other_msg, other_msg].length PassphraseState.PASSPHRASE_WAITING pending_info
        (fresh_world false [other_msg, other_msg]) =
      some (PassphraseState.PASSPHRASE_WAITING, pending_info,
        { fresh_world false [other_msg, other_msg] with
          incoming := []
          trace := (fresh_world false [other_msg, other_msg]).trace ++
            [other_msg, other_msg].map Event.wait_for_tiny_msg }) ∧
    ∀ fuel, run_sm 1 fuel PassphraseState.PASSPHRASE_WAITING pending_info
      (fresh_world false [other_msg, other_msg]) = none :=
  ⟨(unrecognised_keeps_waiting 1 pending_info (fresh_world false [other_msg, other_msg])
      [other_msg, other_msg] [] (by decide) (by decide) (by decide)).2.1,
   (unrecognised_keeps_waiting 1 pending_info (fresh_world false [other_msg, other_msg])
      [other_msg, other_msg] [] (by decide) (by decide) (by decide)).2.2 rfl⟩

/-- C8, as the code behaves: the local struct is read before it is written.  When its
stack bytes read as `PASSPHRASE_ACK_RECEIVED` and the first tiny message is of an
unrecognised type, the machine finishes on that message, and
`passphrase_protect` returns true and caches the stale bytes although no
`PassphraseAck` was received. -/
theorem stale_outcome_caches_junk :
    passphrase_protect 1 2 stale_info (fresh_world false [other_msg]) =
      some (true,
        { passphrase_canceled_by_init := false
          passphrase_protected := true
          session_passphrase := some text_junk
          incoming := []
          trace :=
            [Event.msg_write MessageType.MessageType_PassphraseRequest [0],
             Event.wait_for_tiny_msg other_msg,
             Event.session_cachePassphrase text_junk] }) ∧
      other_msg.msg_type ≠ MessageType.MessageType_PassphraseAck := by
  decide

/-- C9: for every flag value, code and text, `cancel_passphrase` makes exactly one
call, `call_msg_initialize_handler` when the flag is set and
`call_msg_failure_handler(code, text)` when it is not, and leaves the flag
false; a second `cancel_passphrase` right after it calls
`call_msg_failure_handler` with its own code and text. -/
theorem cancel_passphrase_single_use (w : World) (c c2 : FailureType) (t t2 : List Nat) :
    (cancel_passphrase c t w).trace = w.trace ++
        [if w.passphrase_canceled_by_init then Event.call_msg_initialize_handler
         else Event.call_msg_failure_handler c t] ∧
      (cancel_passphrase c t w).passphrase_canceled_by_init = false ∧
      (cancel_passphrase c2 t2 (cancel_passphrase c t w)).trace =
        (cancel_passphrase c t w).trace ++ [Event.call_msg_failure_handler c2 t2] := by
  cases hf : w.passphrase_canceled_by_init <;>
    simp [cancel_passphrase, call_msg_initialize_handler, call_msg_failure_handler, hf]

/-- C10: after a `passphrase_protect` call that runs the interaction from a pending
outcome, whatever the flag held before, the flag is set if and only if the
message that ended the wait was `Initialize`; and when it was, a second attempt
made right after it (no `cancel_passphrase` in between) that is ended by
`Cancel` or by `PassphraseAck` leaves the flag false. -/
theorem flag_tracks_last_attempt (sz fuel : Nat) (junk : PassphraseInfo) (w : World)
    (pre : List TinyMsg) (m : TinyMsg) (rest : List TinyMsg)
    (hprot : storage_get_passphrase_protected w = true)
    (hnc : session_isPassphraseCached w = false)
    (hin : w.incoming = pre ++ m :: rest) (hpre : ∀ x ∈ pre, unrecognised x)
    (hm : ¬ unrecognised m)
    (hpend : junk.passphrase_ack_msg = PassphraseAckMsg.PASSPHRASE_ACK_WAITING)
    (hfuel : pre.length + 2 ≤ fuel) :
    ∃ r w1, passphrase_protect sz fuel junk w = some (r, w1) ∧
      (w1.passphrase_canceled_by_init = true ↔
        m.msg_type = MessageType.MessageType_Initialize) ∧
      (m.msg_type = MessageType.MessageType_Initialize →
        ∀ (fuel2 : Nat) (junk2 : PassphraseInfo) (pre2 : List TinyMsg) (m2 : TinyMsg)
          (rest2 : List TinyMsg),
          rest = pre2 ++ m2 :: rest2 → (∀ x ∈ pre2, unrecognised x) →
          (m2.msg_type = MessageType.MessageType_Cancel ∨
            m2.msg_type = MessageType.MessageType_PassphraseAck) →
          junk2.passphrase_ack_msg = PassphraseAckMsg.PASSPHRASE_ACK_WAITING →
          pre2.length + 2 ≤ fuel2 →
          ∃ r2 w2, passphrase_protect sz fuel2 junk2 w1 = some (r2, w2) ∧
            w2.passphrase_canceled_by_init = false) := by
  have hcases : m.msg_type = MessageType.MessageType_PassphraseAck ∨
      m.msg_type = MessageType.MessageType_Cancel ∨
      m.msg_type = MessageType.MessageType_Initialize := by
    unfold unrecognised at hm
    by_contra hne
    push_neg at hne
    exact hm hne
  rcases hcases with h | h | h
  · refine ⟨_, _, passphrase_protect_ack sz fuel junk w pre m rest hprot hnc hin hpre h
      (Or.inl hpend) hfuel, ?_, ?_⟩ <;> simp [h]
  · refine ⟨_, _, passphrase_protect_cancel sz fuel junk w pre m rest hprot hnc hin hpre h
      (Or.inl hpend) hfuel, ?_, ?_⟩ <;> simp [h]
  · refine ⟨_, _, passphrase_protect_init sz fuel junk w pre m rest hprot hnc hin hpre h
      (Or.inl hpend) hfuel, ?_, ?_⟩
    · simp [h]
    · intro _ fuel2 junk2 pre2 m2 rest2 hrest hpre2 hm2 hpend2 hfuel2
      rcases hm2 with h2 | h2
      · exact ⟨_, _, passphrase_protect_cancel sz fuel2 junk2 _ pre2 m2 rest2 hprot hnc hrest
          hpre2 h2 (Or.inl hpend2) hfuel2, rfl⟩
      · exact ⟨_, _, passphrase_protect_ack sz fuel2 junk2 _ pre2 m2 rest2 hprot hnc hrest
          hpre2 h2 (Or.inl hpend2) hfuel2, rfl⟩

theorem flag_tracks_last_attempt_witness :
    ∃ r w1, passphrase_protect 1 2 pending_info
        (fresh_world false [init_msg, other_msg, cancel_msg]) = some (r, w1) ∧
      w1.passphrase_canceled_by_init = true ∧
      ∃ r2 w2, passphrase_protect 1 3 pending_info w1 = some (r2, w2) ∧
        w2.passphrase_canceled_by_init = false := by
  obtain ⟨r, w1, h1, h2, h3⟩ := flag_tracks_last_attempt 1 2 pending_info
    (fresh_world false [init_msg, other_msg, cancel_msg]) [] init_msg [other_msg, cancel_msg]
    (by decide) (by decide) (by decide) (by decide) (by decide) (by decide) (by decide)
  exact ⟨r, w1, h1, h2.mpr (by decide),
    h3 (by decide) 3 pending_info [other_msg] cancel_msg [] (by decide) (by decide)
      (Or.inl (by decide)) (by decide) (by decide)⟩

/-! ## Lemmas on every run, whatever the struct holds at entry -/

theorem wait_for_passphrase_ack_classify (info : PassphraseInfo) (w : World)
    (m : TinyMsg) (rest : List TinyMsg) (hin : w.incoming = m :: rest) :
    ∃ info1, wait_for_passphrase_ack info w =
        some (info1,
          { w with incoming := rest, trace := w.trace ++ [Event.wait_for_tiny_msg m] }) ∧
      (m.msg_type = MessageType.MessageType_PassphraseAck →
        info1 = ⟨PassphraseAckMsg.PASSPHRASE_ACK_RECEIVED,
          strcpy info.passphrase m.msg_tiny_buf⟩) ∧
      (m.msg_type = MessageType.MessageType_Cancel →
        info1 = { info with passphrase_ack_msg := PassphraseAckMsg.PASSPHRASE_ACK_CANCEL }) ∧
      (m.msg_type = MessageType.MessageType_Initialize →
        info1 =
          { info with passphrase_ack_msg := PassphraseAckMsg.PASSPHRASE_ACK_CANCEL_BY_INIT }) ∧
      (unrecognised m → info1 = info) := by
  by_cases h1 : m.msg_type = MessageType.MessageType_PassphraseAck
  · refine ⟨_, wait_for_passphrase_ack_ack info w m rest hin h1, ?_, ?_, ?_, ?_⟩ <;>
      simp [h1, unrecognised]
  · by_cases h2 : m.msg_type = MessageType.MessageType_Cancel
    · refine ⟨_, wait_for_passphrase_ack_cancel info w m rest hin h2, ?_, ?_, ?_, ?_⟩ <;>
        simp [h2, unrecognised]
    · by_cases h3 : m.msg_type = MessageType.MessageType_Initialize
      · refine ⟨_, wait_for_passphrase_ack_init info w m rest hin h3, ?_, ?_, ?_, ?_⟩ <;>
          simp [h3, unrecognised]
      · refine ⟨_, wait_for_passphrase_ack_unrecognised info w m rest hin ⟨h1, h2, h3⟩,
          ?_, ?_, ?_, ?_⟩ <;> simp [h1, h2, h3]

theorem wait_for_passphrase_ack_world (info info1 : PassphraseInfo) (w w1 : World)
    (h : wait_for_passphrase_ack info w = some (info1, w1)) :
    ∃ m rest, w.incoming = m :: rest ∧
      w1 = { w with incoming := rest, trace := w.trace ++ [Event.wait_for_tiny_msg m] } := by
  cases hin : w.incoming with
  | nil => simp [wait_for_passphrase_ack, wait_for_tiny_msg, hin] at h
  | cons m rest =>
    obtain ⟨i, hi, _⟩ := wait_for_passphrase_ack_classify info w m rest hin
    rw [hi] at h
    simp only [Option.some.injEq, Prod.mk.injEq] at h
    exact ⟨m, rest, rfl, h.2.symm⟩

theorem run_sm_waiting_world (sz : Nat) :
    ∀ (fuel : Nat) (info info1 : PassphraseInfo) (w w1 : World),
      run_sm sz fuel PassphraseState.PASSPHRASE_WAITING info w = some (info1, w1) →
      ∃ ms rest, ms ≠ [] ∧ w.incoming = ms ++ rest ∧
        w1 = { w with incoming := rest, trace := w.trace ++ received ms } := by
  intro fuel
  induction fuel with
  | zero => intro info info1 w w1 h; simp [run_sm] at h
  | succ k ih =>
    intro info info1 w w1 h
    simp only [run_sm, run_passphrase_state] at h
    cases hw : wait_for_passphrase_ack info w with
    | none => simp [hw] at h
    | some p =>
      obtain ⟨i, w2⟩ := p
      obtain ⟨m, rest, hin, hw2⟩ := wait_for_passphrase_ack_world info i w w2 hw
      by_cases hfin : i.passphrase_ack_msg = PassphraseAckMsg.PASSPHRASE_ACK_WAITING
      · simp [hw, hfin] at h
        obtain ⟨ms, rest2, _, hin2, hw1⟩ := ih i info1 w2 w1 h
        refine ⟨m :: ms, rest2, by simp, ?_, ?_⟩
        · rw [hin]; rw [hw2] at hin2; simp at hin2; simp [hin2]
        · rw [hw1, hw2]; simp [received, List.append_assoc]
      · simp [hw, hfin] at h
        refine ⟨[m], rest, by simp, by simp [hin], ?_⟩
        rw [← h.2, hw2]; simp [received]

theorem passphrase_request_world (sz fuel : Nat) (info info1 : PassphraseInfo) (w w1 : World)
    (r : Bool) (h : passphrase_request sz fuel info w = some (r, info1, w1)) :
    ∃ ms rest, ms ≠ [] ∧ w.incoming = ms ++ rest ∧ w1.incoming = rest ∧
      w1.trace = w.trace ++ request_event sz :: received ms ∧
      w1.session_passphrase = w.session_passphrase ∧
      w1.passphrase_protected = w.passphrase_protected ∧
      (r = true ↔ info1.passphrase_ack_msg = PassphraseAckMsg.PASSPHRASE_ACK_RECEIVED) := by
  cases fuel with
  | zero => simp [passphrase_request, run_sm] at h
  | succ k =>
    simp only [passphrase_request, run_sm_request] at h
    cases hr : run_sm sz k PassphraseState.PASSPHRASE_WAITING info
        (send_passphrase_request sz { w with passphrase_canceled_by_init := false }) with
    | none => simp [hr] at h
    | some p =>
      obtain ⟨i, w2⟩ := p
      obtain ⟨ms, rest, hne, hin, hw2⟩ := run_sm_waiting_world sz k info i _ w2 hr
      refine ⟨ms, rest, hne, by simpa [send_passphrase_request, msg_write] using hin, ?_⟩
      rw [hr] at h
      by_cases h1 : i.passphrase_ack_msg = PassphraseAckMsg.PASSPHRASE_ACK_RECEIVED
      · simp [h1] at h
        obtain ⟨hr1, hi1, hw1⟩ := h
        subst hr1 hi1 hw1
        simp [hw2, h1, send_passphrase_request, msg_write, memset_zero, request_event]
      · by_cases h2 : i.passphrase_ack_msg = PassphraseAckMsg.PASSPHRASE_ACK_CANCEL_BY_INIT
        · simp [h1, h2] at h
          obtain ⟨hr1, hi1, hw1⟩ := h
          subst hr1 hi1 hw1
          simp [hw2, h2, send_passphrase_request, msg_write, memset_zero, request_event]
        · simp [h1, h2] at h
          obtain ⟨hr1, hi1, hw1⟩ := h
          subst hr1 hi1 hw1
          simp [hw2, h1, send_passphrase_request, msg_write, memset_zero, request_event]

theorem cache_calls_received (ms : List TinyMsg) : cache_calls (received ms) = 0 := by
  induction ms with
  | nil => rfl
  | cons m ms ih =>
    simp only [cache_calls, received, List.map_cons] at ih ⊢
    simp [List.countP_cons, ih]

/-! ## Lemmas on the number of steps -/

theorem run_sm_waiting_short (sz : Nat) (info : PassphraseInfo)
    (hpend : info.passphrase_ack_msg = PassphraseAckMsg.PASSPHRASE_ACK_WAITING)
    (pre : List TinyMsg) :
    ∀ (k : Nat) (w : World) (tail : List TinyMsg), (∀ x ∈ pre, unrecognised x) →
      w.incoming = pre ++ tail → k ≤ pre.length →
      run_sm sz k PassphraseState.PASSPHRASE_WAITING info w = none := by
  induction pre with
  | nil =>
    intro k w tail _ _ hk
    have : k = 0 := by simpa using hk
    subst this
    rfl
  | cons x pre ih =>
    intro k w tail hpre hin hk
    cases k with
    | zero => rfl
    | succ j =>
      rw [run_sm_waiting_unrecognised sz j info w x (pre ++ tail) (by simpa using hin)
        (hpre x (by simp)) hpend]
      exact ih j _ tail (fun y hy => hpre y (by simp [hy])) rfl
        (by simpa using hk)

theorem run_steps_add (sz : Nat) (a b : Nat) :
    ∀ (st : PassphraseState) (info : PassphraseInfo) (w : World)
      (st1 : PassphraseState) (info1 : PassphraseInfo) (w1 : World),
      run_steps sz a st info w = some (st1, info1, w1) →
      run_steps sz (a + b) st info w = run_steps sz b st1 info1 w1 := by
  induction a with
  | zero =>
    intro st info w st1 info1 w1 h
    simp only [run_steps, Option.some.injEq, Prod.mk.injEq] at h
    obtain ⟨h1, h2, h3⟩ := h
    subst h1 h2 h3
    simp
  | succ a ih =>
    intro st info w st1 info1 w1 h
    have hab : a + 1 + b = (a + b) + 1 := by omega
    rw [hab]
    simp only [run_steps] at h ⊢
    cases hs : run_passphrase_state sz st info w with
    | none => simp [hs] at h
    | some p =>
      obtain ⟨st2, info2, w2⟩ := p
      rw [hs] at h
      exact ih st2 info2 w2 st1 info1 w1 h

/-- C11: when the host sends `n` tiny messages of unrecognised types and then one of
type `PassphraseAck`, `Cancel` or `Initialize`, `passphrase_request` started with
a pending outcome returns as soon as the loop may take `n + 2` steps and not
with fewer; the `n + 2` steps end in `PASSPHRASE_FINISHED`, the calls made are
the one request and `n + 1` receives, and the outcome and the returned flag
are fixed by the type of the last message alone. -/
theorem passphrase_request_terminates (sz : Nat) (info : PassphraseInfo) (w : World)
    (pre : List TinyMsg) (m : TinyMsg) (rest : List TinyMsg)
    (hin : w.incoming = pre ++ m :: rest) (hpre : ∀ x ∈ pre, unrecognised x)
    (hm : ¬ unrecognised m)
    (hpend : info.passphrase_ack_msg = PassphraseAckMsg.PASSPHRASE_ACK_WAITING) :
    ∃ r info1,
      (∀ fuel, pre.length + 2 ≤ fuel →
        passphrase_request sz fuel info w =
          some (r, info1,
            { w with
              passphrase_canceled_by_init :=
                decide (m.msg_type = MessageType.MessageType_Initialize)
              incoming := rest
              trace := w.trace ++ request_event sz :: received (pre ++ [m]) })) ∧
      (∀ fuel, fuel < pre.length + 2 → passphrase_request sz fuel info w = none) ∧
      run_steps sz (pre.length + 2) PassphraseState.PASSPHRASE_REQUEST info
          { w with passphrase_canceled_by_init := false } =
        some (PassphraseState.PASSPHRASE_FINISHED, info1,
          { w with
            passphrase_canceled_by_init := false
            incoming := rest
            trace := w.trace ++ request_event sz :: received (pre ++ [m]) }) ∧
      (received (pre ++ [m])).length = pre.length + 1 ∧
      (m.msg_type = MessageType.MessageType_PassphraseAck →
        r = true ∧ info1.passphrase_ack_msg = PassphraseAckMsg.PASSPHRASE_ACK_RECEIVED) ∧
      (m.msg_type = MessageType.MessageType_Cancel →
        r = false ∧ info1.passphrase_ack_msg = PassphraseAckMsg.PASSPHRASE_ACK_CANCEL) ∧
      (m.msg_type = MessageType.MessageType_Initialize →
        r = false ∧
          info1.passphrase_ack_msg = PassphraseAckMsg.PASSPHRASE_ACK_CANCEL_BY_INIT) := by
  have hcases : m.msg_type = MessageType.MessageType_PassphraseAck ∨
      m.msg_type = MessageType.MessageType_Cancel ∨
      m.msg_type = MessageType.MessageType_Initialize := by
    unfold unrecognised at hm
    by_contra hne
    push_neg at hne
    exact hm hne
  obtain ⟨info1, hwait, hA, hC, hI, _⟩ := wait_for_passphrase_ack_classify info
    { w with
      passphrase_canceled_by_init := false
      incoming := m :: rest
      trace := w.trace ++ request_event sz :: received pre } m rest rfl
  have hout : (m.msg_type = MessageType.MessageType_PassphraseAck →
        info1.passphrase_ack_msg = PassphraseAckMsg.PASSPHRASE_ACK_RECEIVED) ∧
      (m.msg_type = MessageType.MessageType_Cancel →
        info1.passphrase_ack_msg = PassphraseAckMsg.PASSPHRASE_ACK_CANCEL) ∧
      (m.msg_type = MessageType.MessageType_Initialize →
        info1.passphrase_ack_msg = PassphraseAckMsg.PASSPHRASE_ACK_CANCEL_BY_INIT) :=
    ⟨fun h => by rw [hA h], fun h => by rw [hC h], fun h => by rw [hI h]⟩
  have hne : info1.passphrase_ack_msg ≠ PassphraseAckMsg.PASSPHRASE_ACK_WAITING := by
    rcases hcases with h | h | h
    · rw [hout.1 h]; decide
    · rw [hout.2.1 h]; decide
    · rw [hout.2.2 h]; decide
  refine ⟨decide (m.msg_type = MessageType.MessageType_PassphraseAck), info1,
    ?_, ?_, ?_, ?_, ?_, ?_, ?_⟩
  · intro fuel hf
    have hrun := run_sm_run sz fuel info { w with passphrase_canceled_by_init := false }
      pre m rest hin hpre hm (Or.inl hpend) hf
    simp only [passphrase_request, hrun, hwait]
    rcases hcases with h | h | h
    · simp [hout.1 h, h, received, List.append_assoc]
    · simp [hout.2.1 h, h, received, List.append_assoc]
    · simp [hout.2.2 h, h, received, List.append_assoc]
  · intro fuel hf
    cases fuel with
    | zero => simp [passphrase_request, run_sm]
    | succ k =>
      simp only [passphrase_request, run_sm_request]
      rw [run_sm_waiting_short sz info hpend pre k _ (m :: rest) hpre
        (by simpa [send_passphrase_request, msg_write] using hin) (by omega)]
  · have h1 : run_steps sz 1 PassphraseState.PASSPHRASE_REQUEST info
        { w with passphrase_canceled_by_init := false } =
        some (PassphraseState.PASSPHRASE_WAITING, info,
          send_passphrase_request sz { w with passphrase_canceled_by_init := false }) := by
      simp [run_steps, run_passphrase_state]
    have h2 := run_steps_unrecognised sz info hpend pre
      (send_passphrase_request sz { w with passphrase_canceled_by_init := false })
      (m :: rest) hpre (by simpa [send_passphrase_request, msg_write] using hin)
    have hlen : pre.length + 2 = 1 + (pre.length + 1) := by omega
    rw [hlen, run_steps_add sz 1 (pre.length + 1) _ _ _ _ _ _ h1,
      run_steps_add sz pre.length 1 _ _ _ _ _ _ h2]
    have hw : ({ send_passphrase_request sz { w with passphrase_canceled_by_init := false } with
        incoming := m :: rest
        trace := (send_passphrase_request sz
          { w with passphrase_canceled_by_init := false }).trace ++ received pre } : World) =
        { w with
          passphrase_canceled_by_init := false
          incoming := m :: rest
          trace := w.trace ++ request_event sz :: received pre } := by
      simp [send_passphrase_request, msg_write, memset_zero, request_event, List.append_assoc]
    rw [hw]
    simp only [run_steps, run_passphrase_state, hwait]
    simp [hne, received, List.append_assoc]
  · simp [received]
  · intro h; exact ⟨by simp [h], hout.1 h⟩
  · intro h; exact ⟨by simp [h], hout.2.1 h⟩
  · intro h; exact ⟨by simp [h], hout.2.2 h⟩

theorem passphrase_request_terminates_witness :
    ∃ r info1,
      (∀ fuel, 2 + 2 ≤ fuel →
        passphrase_request 1 fuel pending_info (fresh_world true [other_msg, other_msg, init_msg]) =
          some (r, info1,
            { fresh_world true [other_msg, other_msg, init_msg] with
              passphrase_canceled_by_init := true
              incoming := []
              trace := [request_event 1, Event.wait_for_tiny_msg other_msg,
                Event.wait_for_tiny_msg other_msg, Event.wait_for_tiny_msg init_msg] })) ∧
      (∀ fuel, fuel < 2 + 2 →
        passphrase_request 1 fuel pending_info (fresh_world true [other_msg, other_msg, init_msg]) =
          none) ∧
      r = false ∧
      info1.passphrase_ack_msg = PassphraseAckMsg.PASSPHRASE_ACK_CANCEL_BY_INIT := by
  obtain ⟨r, info1, h1, h2, _, _, _, _, h7⟩ := passphrase_request_terminates 1 pending_info
    (fresh_world true [other_msg, other_msg, init_msg]) [other_msg, other_msg] init_msg []
    (by decide) (by decide) (by decide) (by decide)
  exact ⟨r, info1, h1, h2, (h7 (by decide)).1, (h7 (by decide)).2⟩

/-- C12: in every run of `passphrase_request` that returns, the calls made are one
`msg_write` of type `PassphraseRequest` whose payload bytes are all zero,
followed by receives only, at least one.  The step taken in
`PASSPHRASE_REQUEST` writes that message and moves to `PASSPHRASE_WAITING`
whatever the struct holds; a step taken in `PASSPHRASE_WAITING` adds one
receive and no write; a step taken in `PASSPHRASE_FINISHED` adds nothing. -/
theorem passphrase_request_writes_once (sz fuel : Nat) (info info1 : PassphraseInfo)
    (w w1 : World) (r : Bool)
    (h : passphrase_request sz fuel info w = some (r, info1, w1)) :
    (∃ ms, ms ≠ [] ∧
      w1.trace = w.trace ++
        Event.msg_write MessageType.MessageType_PassphraseRequest (List.replicate sz 0) ::
          ms.map Event.wait_for_tiny_msg) ∧
    (∀ b ∈ memset_zero sz, b = 0) ∧
    (∀ (i : PassphraseInfo) (v : World),
      run_passphrase_state sz PassphraseState.PASSPHRASE_REQUEST i v =
        some (PassphraseState.PASSPHRASE_WAITING, i,
          { v with trace := v.trace ++
              [Event.msg_write MessageType.MessageType_PassphraseRequest (memset_zero sz)] })) ∧
    (∀ (i i2 : PassphraseInfo) (v v2 : World) (st2 : PassphraseState),
      run_passphrase_state sz PassphraseState.PASSPHRASE_WAITING i v = some (st2, i2, v2) →
      ∃ m, v2.trace = v.trace ++ [Event.wait_for_tiny_msg m]) ∧
    (∀ (i : PassphraseInfo) (v : World),
      run_passphrase_state sz PassphraseState.PASSPHRASE_FINISHED i v =
        some (PassphraseState.PASSPHRASE_FINISHED, i, v)) := by
  refine ⟨?_, ?_, ?_, ?_, ?_⟩
  · obtain ⟨ms, rest, hne, _, _, htr, _⟩ := passphrase_request_world sz fuel info info1 w w1 r h
    exact ⟨ms, hne, by simpa [request_event, received] using htr⟩
  · intro b hb
    exact List.eq_of_mem_replicate hb
  · intro i v
    simp [run_passphrase_state, send_passphrase_request, msg_write]
  · intro i i2 v v2 st2 hstep
    simp only [run_passphrase_state] at hstep
    cases hw : wait_for_passphrase_ack i v with
    | none => simp [hw] at hstep
    | some p =>
      obtain ⟨i3, v3⟩ := p
      obtain ⟨m, rest, _, hv3⟩ := wait_for_passphrase_ack_world i i3 v v3 hw
      rw [hw] at hstep
      have hv : v2 = v3 := by
        by_cases hp : i3.passphrase_ack_msg = PassphraseAckMsg.PASSPHRASE_ACK_WAITING
        · simp [hp] at hstep; exact hstep.2.2.symm
        · simp [hp] at hstep; exact hstep.2.2.symm
      exact ⟨m, by rw [hv, hv3]⟩
  · intro i v
    rfl

theorem passphrase_request_writes_once_witness :
    ∃ ms, ms ≠ [] ∧
      (fresh_world false []).trace ++
          [Event.msg_write MessageType.MessageType_PassphraseRequest [0],
           Event.wait_for_tiny_msg other_msg, Event.wait_for_tiny_msg cancel_msg] =
        (fresh_world false [other_msg, cancel_msg]).trace ++
          Event.msg_write MessageType.MessageType_PassphraseRequest (List.replicate 1 0) ::
            ms.map Event.wait_for_tiny_msg :=
  (passphrase_request_writes_once 1 3 pending_info
    { pending_info with passphrase_ack_msg := PassphraseAckMsg.PASSPHRASE_ACK_CANCEL }
    (fresh_world false [other_msg, cancel_msg])
    { fresh_world false [] with
      trace := (fresh_world false []).trace ++
        [Event.msg_write MessageType.MessageType_PassphraseRequest [0],
         Event.wait_for_tiny_msg other_msg, Event.wait_for_tiny_msg cancel_msg] }
    false (by decide)).1

/-- What holds of every step that moves the machine from another state to
`PASSPHRASE_FINISHED`: the outcome it leaves is not pending, and it is one of
`RECEIVED`, `CANCEL`, `CANCEL_BY_INIT` when the struct was pending before the
step; a step taken in `PASSPHRASE_FINISHED` returns the same state, struct and
world. -/
theorem finished_not_pending (sz : Nat) (st : PassphraseState)
    (info info1 : PassphraseInfo) (w w1 : World)
    (hstep : run_passphrase_state sz st info w =
      some (PassphraseState.PASSPHRASE_FINISHED, info1, w1))
    (hmove : st ≠ PassphraseState.PASSPHRASE_FINISHED) :
    info1.passphrase_ack_msg ≠ PassphraseAckMsg.PASSPHRASE_ACK_WAITING ∧
    (info.passphrase_ack_msg = PassphraseAckMsg.PASSPHRASE_ACK_WAITING →
      info1.passphrase_ack_msg = PassphraseAckMsg.PASSPHRASE_ACK_RECEIVED ∨
      info1.passphrase_ack_msg = PassphraseAckMsg.PASSPHRASE_ACK_CANCEL ∨
      info1.passphrase_ack_msg = PassphraseAckMsg.PASSPHRASE_ACK_CANCEL_BY_INIT) ∧
    (∀ (i : PassphraseInfo) (v : World),
      run_passphrase_state sz PassphraseState.PASSPHRASE_FINISHED i v =
        some (PassphraseState.PASSPHRASE_FINISHED, i, v)) := by
  cases st with
  | PASSPHRASE_REQUEST => simp [run_passphrase_state] at hstep
  | PASSPHRASE_FINISHED => exact absurd rfl hmove
  | PASSPHRASE_WAITING =>
    simp only [run_passphrase_state] at hstep
    cases hw : wait_for_passphrase_ack info w with
    | none => simp [hw] at hstep
    | some p =>
      obtain ⟨i3, v3⟩ := p
      rw [hw] at hstep
      by_cases hp : i3.passphrase_ack_msg = PassphraseAckMsg.PASSPHRASE_ACK_WAITING
      · simp [hp] at hstep
      · simp [hp] at hstep
        obtain ⟨hi, _⟩ := hstep
        subst hi
        refine ⟨hp, ?_, fun i v => rfl⟩
        intro hpend
        obtain ⟨m, rest, hin, _⟩ := wait_for_passphrase_ack_world info i3 w v3 hw
        obtain ⟨i4, h4, hA, hC, hI, hU⟩ := wait_for_passphrase_ack_classify info w m rest hin
        rw [hw] at h4
        simp only [Option.some.injEq, Prod.mk.injEq] at h4
        obtain ⟨hi4, _⟩ := h4
        subst hi4
        by_cases h1 : m.msg_type = MessageType.MessageType_PassphraseAck
        · left; rw [hA h1]
        · by_cases h2 : m.msg_type = MessageType.MessageType_Cancel
          · right; left; rw [hC h2]
          · by_cases h3 : m.msg_type = MessageType.MessageType_Initialize
            · right; right; rw [hI h3]
            · exact absurd (by rw [hU ⟨h1, h2, h3⟩]; exact hpend) hp

/-- C13, as the code behaves: the struct handed to the machine is the local of
`passphrase_protect`, which nothing assigns before the step in
`PASSPHRASE_WAITING` tests it.  When its outcome field holds a value that is no
enumerator and the first tiny message is of an unrecognised type, the two
steps of the loop end in `PASSPHRASE_FINISHED` with that value as the outcome:
the step has moved to `PASSPHRASE_FINISHED` with an outcome that is none of
`RECEIVED`, `CANCEL`, `CANCEL_BY_INIT`. -/
theorem finished_with_stale_outcome :
    run_passphrase_state 1 PassphraseState.PASSPHRASE_WAITING garbage_info
        (fresh_world false [other_msg]) =
      some (PassphraseState.PASSPHRASE_FINISHED, garbage_info,
        { fresh_world false [] with trace := [Event.wait_for_tiny_msg other_msg] }) ∧
    run_steps 1 2 PassphraseState.PASSPHRASE_REQUEST garbage_info
        (fresh_world false [other_msg]) =
      some (PassphraseState.PASSPHRASE_FINISHED, garbage_info,
        { fresh_world false [] with
          trace := [request_event 1, Event.wait_for_tiny_msg other_msg] }) ∧
    garbage_info.passphrase_ack_msg ≠ PassphraseAckMsg.PASSPHRASE_ACK_RECEIVED ∧
    garbage_info.passphrase_ack_msg ≠ PassphraseAckMsg.PASSPHRASE_ACK_CANCEL ∧
    garbage_info.passphrase_ack_msg ≠ PassphraseAckMsg.PASSPHRASE_ACK_CANCEL_BY_INIT := by
  decide

/-- C14: whatever the flag, the collaborators' answers, the local struct and the
incoming messages, when `passphrase_protect` returns it has called
`session_cachePassphrase` at most once, and when it returns false it has not
called it and the session cache holds what it held before. -/
theorem cache_called_at_most_once (sz fuel : Nat) (junk : PassphraseInfo) (w w1 : World)
    (r : Bool) (h : passphrase_protect sz fuel junk w = some (r, w1)) :
    cache_calls w1.trace ≤ cache_calls w.trace + 1 ∧
    (r = false →
      cache_calls w1.trace = cache_calls w.trace ∧
      w1.session_passphrase = w.session_passphrase) := by
  unfold passphrase_protect at h
  by_cases hc : (storage_get_passphrase_protected w && !session_isPassphraseCached w) = true
  · rw [if_pos hc] at h
    cases hreq : passphrase_request sz fuel junk w with
    | none => simp [hreq] at h
    | some p =>
      obtain ⟨r2, i2, w2⟩ := p
      obtain ⟨ms, rest, _, _, _, htr, hsess, _, _⟩ :=
        passphrase_request_world sz fuel junk i2 w w2 r2 hreq
      have hcount : cache_calls w2.trace = cache_calls w.trace := by
        have hr := cache_calls_received ms
        rw [htr]
        simp only [cache_calls] at hr ⊢
        simp [List.countP_append, List.countP_cons, request_event, hr]
      rw [hreq] at h
      cases r2 with
      | true =>
        simp only [Option.some.injEq, Prod.mk.injEq] at h
        obtain ⟨hr1, hw1⟩ := h
        subst hr1 hw1
        constructor
        · have hc2 : cache_calls (session_cachePassphrase i2.passphrase w2).trace =
              cache_calls w2.trace + 1 := by
            simp [cache_calls, session_cachePassphrase, List.countP_append]
          omega
        · intro hf; cases hf
      | false =>
        simp only [Option.some.injEq, Prod.mk.injEq] at h
        obtain ⟨hr1, hw1⟩ := h
        subst hr1 hw1
        exact ⟨by omega, fun _ => ⟨hcount, hsess⟩⟩
  · rw [if_neg hc] at h
    simp only [Option.some.injEq, Prod.mk.injEq] at h
    obtain ⟨hr1, hw1⟩ := h
    subst hr1 hw1
    exact ⟨by omega, fun _ => ⟨rfl, rfl⟩⟩

theorem cache_called_at_most_once_witness :
    cache_calls [request_event 1, Event.wait_for_tiny_msg other_msg,
        Event.wait_for_tiny_msg init_msg] ≤
      cache_calls (fresh_world false [other_msg, init_msg]).trace + 1 ∧
    cache_calls [request_event 1, Event.wait_for_tiny_msg other_msg,
        Event.wait_for_tiny_msg init_msg] =
      cache_calls (fresh_world false [other_msg, init_msg]).trace ∧
    (none : Option (List Nat)) =
      (fresh_world false [other_msg, init_msg]).session_passphrase :=
  ⟨(cache_called_at_most_once 1 3 pending_info (fresh_world false [other_msg, init_msg])
      { fresh_world true [] with
        trace := [request_event 1, Event.wait_for_tiny_msg other_msg,
          Event.wait_for_tiny_msg init_msg] }
      false (by decide)).1,
   (cache_called_at_most_once 1 3 pending_info (fresh_world false [other_msg, init_msg])
      { fresh_world true [] with
        trace := [request_event 1, Event.wait_for_tiny_msg other_msg,
          Event.wait_for_tiny_msg init_msg] }
      false (by decide)).2 rfl⟩

/-- C15: one `wait_for_passphrase_ack` on a message of a type other than
`PassphraseAck` (that is `Cancel`, `Initialize` or an unrecognised type) leaves
the `passphrase` field as it was; a `PassphraseAck` stores the copy of its
string there and sets `RECEIVED`; `Cancel` sets `CANCEL`, `Initialize` sets
`CANCEL_BY_INIT`, and an unrecognised type leaves the outcome as it was. -/
theorem wait_for_passphrase_ack_frame (info : PassphraseInfo) (w : World)
    (m : TinyMsg) (rest : List TinyMsg) (hin : w.incoming = m :: rest) :
    ∃ info1, wait_for_passphrase_ack info w =
        some (info1,
          { w with incoming := rest, trace := w.trace ++ [Event.wait_for_tiny_msg m] }) ∧
      (m.msg_type ≠ MessageType.MessageType_PassphraseAck →
        info1.passphrase = info.passphrase) ∧
      (m.msg_type = MessageType.MessageType_PassphraseAck →
        info1.passphrase = strcpy info.passphrase m.msg_tiny_buf ∧
        info1.passphrase_ack_msg = PassphraseAckMsg.PASSPHRASE_ACK_RECEIVED) ∧
      (m.msg_type = MessageType.MessageType_Cancel →
        info1.passphrase_ack_msg = PassphraseAckMsg.PASSPHRASE_ACK_CANCEL) ∧
      (m.msg_type = MessageType.MessageType_Initialize →
        info1.passphrase_ack_msg = PassphraseAckMsg.PASSPHRASE_ACK_CANCEL_BY_INIT) ∧
      (unrecognised m → info1.passphrase_ack_msg = info.passphrase_ack_msg) := by
  obtain ⟨info1, hwait, hA, hC, hI, hU⟩ := wait_for_passphrase_ack_classify info w m rest hin
  refine ⟨info1, hwait, ?_, ?_, ?_, ?_, ?_⟩
  · intro hne
    by_cases h2 : m.msg_type = MessageType.MessageType_Cancel
    · rw [hC h2]
    · by_cases h3 : m.msg_type = MessageType.MessageType_Initialize
      · rw [hI h3]
      · rw [hU ⟨hne, h2, h3⟩]
  · intro h; rw [hA h]; exact ⟨rfl, rfl⟩
  · intro h; rw [hC h]
  · intro h; rw [hI h]
  · intro h; rw [hU h]

theorem wait_for_passphrase_ack_frame_witness :
    ∃ info1, wait_for_passphrase_ack stale_info (fresh_world false [cancel_msg, other_msg]) =
        some (info1,
          { fresh_world false [cancel_msg, other_msg] with
            incoming := [other_msg]
            trace := (fresh_world false [cancel_msg, other_msg]).trace ++
              [Event.wait_for_tiny_msg cancel_msg] }) ∧
      info1.passphrase = stale_info.passphrase ∧
      info1.passphrase_ack_msg = PassphraseAckMsg.PASSPHRASE_ACK_CANCEL := by
  obtain ⟨info1, h1, h2, _, h4, _, _⟩ := wait_for_passphrase_ack_frame stale_info
    (fresh_world false [cancel_msg, other_msg]) cancel_msg [other_msg] (by decide)
  exact ⟨info1, h1, h2 (by decide), h4 (by decide)⟩

end PassphraseSm
